import Mathlib

/-!
Verification of the KPI core of `event_comparison_app.py`.

Shallow embedding conventions:
* Python strings are Lean `String`s; `str.upper` / `str.lower` / `str.strip` /
  `str.split()` and case-insensitive substring tests are modelled over the
  ASCII range that the data and the patterns use.
* A pandas timestamp is a day number (`Int`); timestamps are totally ordered
  and `summit_date - timedelta(days=n)` is `summit_date - n`.
* A nullable cell is an `Option`; `dropna` / `notna` / `fillna('')` become
  `filterMap` / `isSome` / `getD ""`.
* A dataframe is a row list plus one flag per optional column recording
  whether the column is present (`'X' in df.columns`).
-/

namespace EventApp

open scoped List

/-! ### ASCII string model of the Python operations used by the app -/

def isWsChar (c : Char) : Bool :=
  c == ' ' || c == '\t' || c == '\n' || c == '\r' || c == '\x0b' || c == '\x0c'

def upChar (c : Char) : Char :=
  if 'a' ≤ c && c ≤ 'z' then Char.ofNat (c.toNat - 32) else c

def lowChar (c : Char) : Char :=
  if 'A' ≤ c && c ≤ 'Z' then Char.ofNat (c.toNat + 32) else c

/-- Python `str.upper()` (ASCII range). -/
def pyUpper (s : String) : String := String.mk (s.data.map upChar)

/-- Python `str.lower()` (ASCII range). -/
def pyLower (s : String) : String := String.mk (s.data.map lowChar)

def pyStripList (l : List Char) : List Char :=
  ((l.dropWhile isWsChar).reverse.dropWhile isWsChar).reverse

/-- Python `str.strip()`. -/
def pyStrip (s : String) : String := String.mk (pyStripList s.data)

/-- Decide whether `pat` is a prefix of the second list. -/
def isPfx : List Char → List Char → Bool
  | [], _ => true
  | _ :: _, [] => false
  | a :: as, b :: bs => a == b && isPfx as bs

/-- Python `pat in s` on the character lists (contiguous substring). -/
def isSubstr (pat : List Char) : List Char → Bool
  | [] => pat.isEmpty
  | c :: rest => isPfx pat (c :: rest) || isSubstr pat rest

/-- Python `s.endswith(pat)` on the character lists. -/
def isSfx (pat : List Char) : List Char → Bool
  | [] => pat.isEmpty
  | c :: rest => pat == c :: rest || isSfx pat rest

/-- Case-insensitive substring test: pandas `.str.contains(pat, case=False)`. -/
def containsCI (s pat : String) : Bool :=
  isSubstr (pyLower pat).data (pyLower s).data

def splitWsAux : List Char → List Char → List (List Char)
  | [], acc => if acc.isEmpty then [] else [acc.reverse]
  | c :: cs, acc =>
    if isWsChar c then
      if acc.isEmpty then splitWsAux cs [] else acc.reverse :: splitWsAux cs []
    else splitWsAux cs (c :: acc)

/-- Python `str.split()` (split on whitespace runs, dropping empty parts). -/
def pySplit (l : List Char) : List (List Char) := splitWsAux l []

/-! ### Community-college classifier (`is_community_college`, lines 169-198) -/

def SENIOR_KEYWORDS : List String :=
  ["Chief", "VP", "President", "Director", "Head", "Founder", "Dean"]

def emptyStr : String := ""
def patCommunityCollege : String := "Community College"
def patCC : String := "CC"
def patTechnicalCollege : String := "Technical College"
def patJuniorCollege : String := "Junior College"
def patCommColl : String := "Comm Coll"
def patCommDotCollege : String := "Comm. College"
def patTechCollege : String := "Tech College"
def patCityCollege : String := "City College"
def patCountyCollege : String := "County College"

def CC_PATTERNS : List String :=
  [patCommunityCollege, patCC, patTechnicalCollege, patJuniorCollege, patCommColl,
   patCommDotCollege, patTechCollege, patCityCollege, patCountyCollege]

def KNOWN_COMMUNITY_COLLEGES : List String :=
  ["Miami Dade College", "Houston Community College", "Austin Community College District",
   "Northern Virginia Community College", "City College of San Francisco",
   "Santa Monica College", "Lone Star College System",
   "Dallas County Community College District", "Maricopa County Community College District",
   "Los Angeles Community College District", "Pasadena City College", "Orange Coast College",
   "De Anza College", "Foothill College", "Santa Barbara City College",
   "Glendale Community College", "College of the Canyons", "Mt. San Antonio College",
   "Cerritos College", "Long Beach City College", "Tarrant County College",
   "San Jacinto College", "Collin College", "El Paso Community College",
   "San Antonio College", "Alamo Community College District", "Broward College",
   "Valencia College", "Hillsborough Community College", "Palm Beach State College",
   "Seminole State College of Florida", "St. Petersburg College",
   "CUNY Borough of Manhattan Community College", "CUNY LaGuardia Community College",
   "Nassau Community College", "Suffolk County Community College",
   "Monroe Community College", "College of DuPage", "Harper College",
   "Oakton Community College", "Joliet Junior College", "Triton College",
   "Community College of Philadelphia", "Montgomery College", "Cuyahoga Community College",
   "Wake Technical Community College", "Ivy Tech Community College",
   "Portland Community College", "Mesa Community College", "Salt Lake Community College",
   "Front Range Community College", "Kirkwood Community College",
   "Johnson County Community College"]

/-- The token list `['C', 'C']`, i.e. the characters of the string `"CC"`. -/
def ccChars : List Char := ['C', 'C']

/-- The characters of `" CC"`. -/
def spaceCCChars : List Char := [' ', 'C', 'C']

/-- The guard of line 193: `"CC" in words or name_upper.endswith(" CC") or
    name_upper.endswith("CC")`, where `words = name_upper.split()`. -/
def ccGuard (name_upper : String) : Bool :=
  (pySplit name_upper.data).contains ccChars
    || isSfx spaceCCChars name_upper.data
    || isSfx ccChars name_upper.data

/-- One iteration of the pattern loop (lines 187-196) for pattern `p`. -/
def ccPatternHit (name_upper : String) (p : String) : Bool :=
  if isSubstr (pyUpper p).data name_upper.data then
    if pyUpper p == patCC && isSubstr ccChars name_upper.data then ccGuard name_upper
    else true
  else false

/-- The classifier body applied to the normalized (uppercased, stripped) name:
    exact match against the known list, then the pattern loop. -/
def ccCheck (name_upper : String) : Bool :=
  if KNOWN_COMMUNITY_COLLEGES.any (fun known_cc => pyUpper known_cc == name_upper) then true
  else CC_PATTERNS.any (ccPatternHit name_upper)

/-- The classifier `is_community_college` (lines 169-198).  `none` models a Python `None`
    argument; `None` and the empty string are falsy, so line 175 returns
    `False` for both.  The function is total: it never raises. -/
def is_community_college : Option String → Bool
  | none => false
  | some institution_name =>
    if institution_name == "" then false
    else ccCheck (pyStrip (pyUpper institution_name))

/-! ### Date parsing (`parse_dates`, lines 297-346): the fixed-format stage.

`parse_dates` first resolves the date column, then tries the fixed ordered
format list `['%Y-%m-%d', '%m/%d/%Y', '%m/%d/%y', '%d/%m/%Y', '%d/%m/%y']`,
applying one format to the entire column; the first format under which every
value parses wins (lines 325-335).  Only on full failure does it fall back to
pandas' permissive `format='mixed'` parser; that external-library fallback is
outside this model, so the fixed-format stage returns `none` when no fixed
format fully succeeds. -/

structure PDate where
  year : Nat
  month : Nat
  day : Nat
deriving DecidableEq, Repr

def isDigitChar (c : Char) : Bool := '0' ≤ c && c ≤ '9'

def digitsVal (l : List Char) : Nat :=
  l.foldl (fun acc c => acc * 10 + (c.toNat - 48)) 0

def allDigits (l : List Char) : Bool := l.all isDigitChar

/-- Split a character list on a separator character. -/
def splitOnChar (sep : Char) : List Char → List (List Char)
  | [] => [[]]
  | c :: cs =>
    if c == sep then [] :: splitOnChar sep cs
    else
      match splitOnChar sep cs with
      | [] => [[c]]
      | w :: ws => (c :: w) :: ws

def isLeapYear (y : Nat) : Bool := (y % 4 == 0 && y % 100 != 0) || y % 400 == 0

def daysInMonth (y m : Nat) : Nat :=
  if m == 2 then (if isLeapYear y then 29 else 28)
  else if m == 4 || m == 6 || m == 9 || m == 11 then 30
  else 31

def mkPDate (y m d : Nat) : Option PDate :=
  if 1 ≤ m && m ≤ 12 && 1 ≤ d && d ≤ daysInMonth y m then some ⟨y, m, d⟩ else none

/-- A numeric field of between `minLen` and `maxLen` digits. -/
def numField (minLen maxLen : Nat) (l : List Char) : Option Nat :=
  if allDigits l && decide (minLen ≤ l.length) && decide (l.length ≤ maxLen) then
    some (digitsVal l)
  else none

/-- strptime `%y`: two-digit years 00-68 are 2000-2068, 69-99 are 1969-1999. -/
def expandYY (yy : Nat) : Nat := if yy ≤ 68 then 2000 + yy else 1900 + yy

/-- The five formats of line 325, in their order. -/
inductive DateFmt
  | Ymd
  | mdY
  | mdy
  | dmY
  | dmy
deriving DecidableEq, Repr

def parseWithFormat : DateFmt → String → Option PDate
  | .Ymd, s =>
    match splitOnChar '-' s.data with
    | [a, b, c] => do
      let y ← numField 4 4 a
      let m ← numField 1 2 b
      let d ← numField 1 2 c
      mkPDate y m d
    | _ => none
  | .mdY, s =>
    match splitOnChar '/' s.data with
    | [a, b, c] => do
      let m ← numField 1 2 a
      let d ← numField 1 2 b
      let y ← numField 4 4 c
      mkPDate y m d
    | _ => none
  | .mdy, s =>
    match splitOnChar '/' s.data with
    | [a, b, c] => do
      let m ← numField 1 2 a
      let d ← numField 1 2 b
      let yy ← numField 2 2 c
      mkPDate (expandYY yy) m d
    | _ => none
  | .dmY, s =>
    match splitOnChar '/' s.data with
    | [a, b, c] => do
      let d ← numField 1 2 a
      let m ← numField 1 2 b
      let y ← numField 4 4 c
      mkPDate y m d
    | _ => none
  | .dmy, s =>
    match splitOnChar '/' s.data with
    | [a, b, c] => do
      let d ← numField 1 2 a
      let m ← numField 1 2 b
      let yy ← numField 2 2 c
      mkPDate (expandYY yy) m d
    | _ => none

def date_formats : List DateFmt := [.Ymd, .mdY, .mdy, .dmY, .dmy]

/-- Apply one format to the entire column; `none` as soon as one value fails
    (`pd.to_datetime(col, format=fmt)` raises if any value fails). -/
def parseColumnWith (f : DateFmt) : List String → Option (List PDate)
  | [] => some []
  | v :: vs =>
    match parseWithFormat f v, parseColumnWith f vs with
    | some d, some ds => some (d :: ds)
    | _, _ => none

def tryFormats : List DateFmt → List String → Option (List PDate)
  | [], _ => none
  | f :: fs, col =>
    match parseColumnWith f col with
    | some ds => some ds
    | none => tryFormats fs col

/-- The fixed-format loop of `parse_dates` (lines 325-335). -/
def parse_dates_fixed (col : List String) : Option (List PDate) :=
  tryFormats date_formats col

/-! ### Data model for `calculate_kpis` and the trend chart -/

structure Row where
  date : Option Int
  email : Option String
  title : Option String
  genderMy : Option String
  gender : Option String
  company : Option String
  state : Option String
  jobClass : Option String
deriving DecidableEq, Repr

structure DataFrame where
  rows : List Row
  hasEmail : Bool
  hasTitle : Bool
  hasGenderMy : Bool
  hasGender : Bool
  hasCompany : Bool
  hasState : Bool
  hasJobClass : Bool
deriving Repr

structure KPIs where
  attendees : Nat
  senior_leaders : Nat
  women_leaders : Nat
  institutions : Nat
  community_colleges : Nat
  all_colleges : Nat
  us_states : Nat
  startups : Nat
deriving DecidableEq, Repr

/-- Cutoff test `df[df[date_column] <= cutoff_date]`: a NaT date never satisfies it. -/
def inScope (cutoff_date : Int) (r : Row) : Bool :=
  match r.date with
  | some d => decide (d ≤ cutoff_date)
  | none => false

/-- Truthiness guard of line 364: `job_filter and job_filter != "All" and
    'Job Classification' in filtered_df.columns`. -/
def jobFilterActive (df : DataFrame) (job_filter : Option String) : Bool :=
  match job_filter with
  | some jf => !(jf == "") && !(jf == "All") && df.hasJobClass
  | none => false

def applyJobFilter (df : DataFrame) (job_filter : Option String) (rows : List Row) :
    List Row :=
  if jobFilterActive df job_filter then rows.filter (fun r => r.jobClass == job_filter)
  else rows

/-- Guard of line 371 for the institution-type filter. -/
def instFilterActive (df : DataFrame) (institution_filter : Option String) : Bool :=
  match institution_filter with
  | some f => !(f == "") && !(f == "All") && df.hasJobClass
  | none => false

def kwHE : String := "HE"
def kwHigherEd : String := "Higher Ed"
def kwHigherEducation : String := "Higher Education"
def kwK12dash : String := "K-12"
def kwK12 : String := "K12"
def kwCollege : String := "College"
def kwStartup : String := "Start Up/Growth Stage Company"
def kwCorporate : String := "Corporate Enterprise"
def optAll : String := "All"

/-- Line 374: `str.contains('HE|Higher Ed|Higher Education', case=False, na=False)`. -/
def heMatch (r : Row) : Bool :=
  match r.jobClass with
  | some jc => containsCI jc kwHE || containsCI jc kwHigherEd || containsCI jc kwHigherEducation
  | none => false

/-- Line 377: `str.contains('K-12|K12', case=False, na=False)`. -/
def k12Match (r : Row) : Bool :=
  match r.jobClass with
  | some jc => containsCI jc kwK12dash || containsCI jc kwK12
  | none => false

def applyInstFilter (df : DataFrame) (institution_filter : Option String) (rows : List Row) :
    List Row :=
  if instFilterActive df institution_filter then
    match institution_filter with
    | some f =>
      if f == kwHigherEducation then rows.filter heMatch
      else if f == kwK12dash then rows.filter k12Match
      else rows
    | none => rows
  else rows

/-- Line 387: title `fillna('').str.contains('|'.join(SENIOR_KEYWORDS), case=False)`. -/
def seniorMatch (r : Row) : Bool :=
  SENIOR_KEYWORDS.any (fun k => containsCI (r.title.getD emptyStr) k)

def womenValues : List String := ["female", "woman", "f"]

/-- Lines 397 and 399: gender `fillna('').str.lower().isin(['female', 'woman', 'f'])`. -/
def womenValue (g : Option String) : Bool := womenValues.contains (pyLower (g.getD emptyStr))

/-- Line 425: company `fillna('').str.contains('College', case=False, na=False)`. -/
def collegeNameMatch (r : Row) : Bool := containsCI (r.company.getD emptyStr) kwCollege

/-- Line 454: job classification contains either startup pattern, case-insensitive. -/
def startupMatch (r : Row) : Bool :=
  containsCI (r.jobClass.getD emptyStr) kwStartup || containsCI (r.jobClass.getD emptyStr) kwCorporate

/-- The fixed set of 50 U.S. state codes plus DC (lines 437-443). -/
def us_state_codes : List String :=
  ["AL", "AK", "AZ", "AR", "CA", "CO", "CT", "DE", "FL", "GA",
   "HI", "ID", "IL", "IN", "IA", "KS", "KY", "LA", "ME", "MD",
   "MA", "MI", "MN", "MS", "MO", "MT", "NE", "NV", "NH", "NJ",
   "NM", "NY", "NC", "ND", "OH", "OK", "OR", "PA", "RI", "SC",
   "SD", "TN", "TX", "UT", "VT", "VA", "WA", "WV", "WI", "WY", "DC"]

/-- Lines 379-383: attendees are rows with a non-null email, falling back to
    rows with a non-null date when no email column exists. -/
def attendeesCount (df : DataFrame) (filtered : List Row) : Nat :=
  if df.hasEmail then (filtered.filter (fun r => r.email.isSome)).length
  else (filtered.filter (fun r => r.date.isSome)).length

/-- Lines 386-392: the senior-leader rows (`senior_df`), empty when the Title
    column is absent. -/
def seniorRows (df : DataFrame) (filtered : List Row) : List Row :=
  if df.hasTitle then filtered.filter seniorMatch else []

/-- Lines 395-401: women leaders among `senior_df`, with the two-column
    fallback and the `len(senior_df) > 0` guards. -/
def womenCount (df : DataFrame) (senior_df : List Row) : Nat :=
  if df.hasGenderMy && !senior_df.isEmpty then
    (senior_df.filter (fun r => womenValue r.genderMy)).length
  else if df.hasGender && !senior_df.isEmpty then
    (senior_df.filter (fun r => womenValue r.gender)).length
  else 0

/-- The list `inst_filtered_df['Company Name'].dropna().unique()` of distinct
    non-null company names. -/
def uniqueCompanies (rows : List Row) : List String :=
  (rows.filterMap (fun r => r.company)).dedup

/-- Lines 404-407: `nunique` of non-null company names. -/
def institutionsCount (df : DataFrame) (inst_filtered : List Row) : Nat :=
  if df.hasCompany then (uniqueCompanies inst_filtered).length else 0

/-- Lines 410-422: distinct company names passing `is_community_college`. -/
def ccCount (df : DataFrame) (inst_filtered : List Row) : Nat :=
  if df.hasCompany then
    ((uniqueCompanies inst_filtered).filter (fun inst => is_community_college (some inst))).length
  else 0

/-- Lines 424-426: `nunique` of company names containing "College". -/
def collegesCount (df : DataFrame) (inst_filtered : List Row) : Nat :=
  if df.hasCompany then (uniqueCompanies (inst_filtered.filter collegeNameMatch)).length
  else 0

/-- Lines 431-449: distinct raw non-null state codes whose uppercase is a
    valid U.S. state code.  Note the code deduplicates the raw codes and only
    then uppercases each for the membership test. -/
def usStatesCount (df : DataFrame) (inst_filtered : List Row) : Nat :=
  if df.hasState then
    (((inst_filtered.filterMap (fun r => r.state)).dedup).filter
      (fun code => us_state_codes.contains (pyUpper code))).length
  else 0

/-- Lines 452-461: rows whose job classification matches a startup pattern. -/
def startupsCount (df : DataFrame) (filtered : List Row) : Nat :=
  if df.hasJobClass then (filtered.filter startupMatch).length else 0

/-- The KPI engine `calculate_kpis` (lines 355-472).  Note line 368: `inst_filtered_df` is a
    copy of `filtered_df` taken AFTER the job-classification filter, so the
    institution-type filter applies on top of the job filter. -/
def calculate_kpis (df : DataFrame) (days_before_summit summit_date : Int)
    (job_filter institution_filter : Option String) : KPIs :=
  let cutoff_date := summit_date - days_before_summit
  let filtered := applyJobFilter df job_filter (df.rows.filter (inScope cutoff_date))
  let inst_filtered := applyInstFilter df institution_filter filtered
  let senior_df := seniorRows df filtered
  { attendees := attendeesCount df filtered
    senior_leaders := senior_df.length
    women_leaders := womenCount df senior_df
    institutions := institutionsCount df inst_filtered
    community_colleges := ccCount df inst_filtered
    all_colleges := collegesCount df inst_filtered
    us_states := usStatesCount df inst_filtered
    startups := startupsCount df filtered }

/-! ### Trend aggregator (`create_daily_registration_chart`, lines 474-536) -/

/-- Insert into a list kept sorted in descending order. -/
def insertDesc (x : Int) : List Int → List Int
  | [] => [x]
  | y :: ys => if decide (x ≥ y) then x :: y :: ys else y :: insertDesc x ys

def sortDesc (l : List Int) : List Int := l.foldr insertDesc []

/-- Running cumulative sum of the per-day counts (`cumsum`, lines 503-504). -/
def cumulate : List (Int × Nat) → Nat → List (Int × Nat)
  | [], _ => []
  | (k, c) :: rest, acc => (k, acc + c) :: cumulate rest (acc + c)

/-- One dataset's series: filter by cutoff and job filter, compute
    `days_before_summit` per row, group by it, sort descending, cumsum. -/
def trendSeries (df : DataFrame) (days_before_summit summit_date : Int)
    (job_filter : Option String) : List (Int × Nat) :=
  let cutoff_date := summit_date - days_before_summit
  let f := applyJobFilter df job_filter (df.rows.filter (inScope cutoff_date))
  let days := f.filterMap (fun r => r.date.map (fun d => summit_date - d))
  cumulate ((sortDesc days.dedup).map (fun k => (k, days.count k))) 0

/-- The chart builder `create_daily_registration_chart` (lines 474-536): the pair of
    cumulative series it plots. -/
def create_daily_registration_chart (df1 df2 : DataFrame) (days_before_summit : Int)
    (summit_date1 summit_date2 : Int) (job_filter : Option String) :
    List (Int × Nat) × List (Int × Nat) :=
  (trendSeries df1 days_before_summit summit_date1 job_filter,
   trendSeries df2 days_before_summit summit_date2 job_filter)

/-- The percentage-change display rule (lines 767-771). -/
def pct_change (val1 val2 : Nat) : ℚ :=
  if val1 > 0 then (((val2 : ℚ) - (val1 : ℚ)) / (val1 : ℚ)) * 100
  else if val2 == 0 then 0 else 100

/-! ### Definitions written from the spec's words, for comparison with the code -/

/-- Modelled from the spec: the claimed variant of `calculate_kpis` in which
    the job-classification filter and the institution-type filter are
    independent — the institution-type condition is applied directly to the
    cutoff-restricted rows, without the job-classification restriction.  This
    follows the spec's words; the source (line 368) instead copies the
    already job-filtered frame. -/
def calculate_kpis_independent (df : DataFrame) (days_before_summit summit_date : Int)
    (job_filter institution_filter : Option String) : KPIs :=
  let cutoff_date := summit_date - days_before_summit
  let base := df.rows.filter (inScope cutoff_date)
  let filtered := applyJobFilter df job_filter base
  let inst_filtered := applyInstFilter df institution_filter base
  let senior_df := seniorRows df filtered
  { attendees := attendeesCount df filtered
    senior_leaders := senior_df.length
    women_leaders := womenCount df senior_df
    institutions := institutionsCount df inst_filtered
    community_colleges := ccCount df inst_filtered
    all_colleges := collegesCount df inst_filtered
    us_states := usStatesCount df inst_filtered
    startups := startupsCount df filtered }

/-- Modelled from the spec: the claimed U.S. States count — the number of
    DISTINCT UPPERCASED state codes of the given rows that belong to the
    fixed set.  The source instead deduplicates the raw codes first and only
    uppercases for the membership test. -/
def usStatesUppercasedDistinct (rows : List Row) : Nat :=
  ((((rows.filterMap (fun r => r.state)).map pyUpper).dedup).filter
    (fun code => us_state_codes.contains code)).length

/-- The chained row condition the institution-type filter actually imposes,
    per filter value: the `Higher Education` and `K-12` buckets filter, any
    other active value leaves the rows unchanged. -/
def instCond (instf : String) (r : Row) : Bool :=
  if instf == kwHigherEducation then heMatch r
  else if instf == kwK12dash then k12Match r
  else true

/-- A column made only of copies of the ambiguous slash date shape
    `dd/dd/dddd` that parses under BOTH `%m/%d/%Y` and `%d/%m/%Y`
    (like "03/04/2024"). -/
def ambiguousSlashForm (v : String) : Bool :=
  match v.data with
  | [a, b, '/', c, d, '/', e, f, g, h] =>
    isDigitChar a && isDigitChar b && isDigitChar c && isDigitChar d &&
    isDigitChar e && isDigitChar f && isDigitChar g && isDigitChar h &&
    (parseWithFormat DateFmt.mdY v).isSome && (parseWithFormat DateFmt.dmY v).isSome
  | _ => false

/-! ### Concrete data used by the witnesses and counterexamples -/

def nameABC : String := "ABC"
def nameParklandCC : String := "Parkland CC"
def nameMiamiUpper : String := "MIAMI DADE COLLEGE"
def nameMiami : String := "Miami Dade College"
def wsTwoSpaces : String := "  "
def emptyName : String := ""
def dateAmb : String := "03/04/2024"
def coAlpha : String := "Alpha University"
def coBeta : String := "Beta University"
def jcHEfac : String := "HE Faculty"
def jcHEstaff : String := "HE Staff"
def stLowerCA : String := "ca"
def stUpperCA : String := "CA"

def rowHE1 : Row :=
  { date := some 0, email := none, title := none, genderMy := none, gender := none,
    company := some coAlpha, state := some stLowerCA, jobClass := some jcHEfac }

def rowHE2 : Row :=
  { date := some 0, email := none, title := none, genderMy := none, gender := none,
    company := some coBeta, state := some stUpperCA, jobClass := some jcHEstaff }

/-- Two in-scope higher-education rows from different institutions, with raw
    state codes differing only in letter case. -/
def dfPair : DataFrame :=
  { rows := [rowHE1, rowHE2], hasEmail := false, hasTitle := false, hasGenderMy := false,
    hasGender := false, hasCompany := true, hasState := true, hasJobClass := true }

/-- A dataframe with every optional column absent. -/
def dfBare : DataFrame :=
  { rows := [rowHE1], hasEmail := false, hasTitle := false, hasGenderMy := false,
    hasGender := false, hasCompany := false, hasState := false, hasJobClass := false }

def rowNilCompany : Row :=
  { date := some 0, email := none, title := none, genderMy := none, gender := none,
    company := none, state := none, jobClass := none }

/-- A dataframe whose Company Name column is present but entirely null. -/
def dfNullCompany : DataFrame :=
  { rows := [rowNilCompany, rowNilCompany], hasEmail := false, hasTitle := false,
    hasGenderMy := false, hasGender := false, hasCompany := true, hasState := false,
    hasJobClass := false }

/-! ## General lemmas about the embedded operations -/

theorem dedup_length_mono {α : Type} [DecidableEq α] {l1 l2 : List α} (h : l1 ⊆ l2) :
    l1.dedup.length ≤ l2.dedup.length := by
  rw [← List.card_toFinset, ← List.card_toFinset]
  exact Finset.card_le_card (fun x hx => by
    simp only [List.mem_toFinset] at hx ⊢; exact h hx)

theorem dedup_filter_length_mono {α : Type} [DecidableEq α] (p : α → Bool) {l1 l2 : List α}
    (h : l1 ⊆ l2) : (l1.dedup.filter p).length ≤ (l2.dedup.filter p).length := by
  have n1 : (l1.dedup.filter p).Nodup := l1.nodup_dedup.filter p
  have n2 : (l2.dedup.filter p).Nodup := l2.nodup_dedup.filter p
  rw [← List.toFinset_card_of_nodup n1, ← List.toFinset_card_of_nodup n2]
  apply Finset.card_le_card
  intro x hx
  simp only [List.mem_toFinset, List.mem_filter, List.mem_dedup] at hx ⊢
  exact ⟨h hx.1, hx.2⟩

theorem inScope_imp {c1 c2 : Int} (h : c1 ≤ c2) :
    ∀ r : Row, inScope c1 r = true → inScope c2 r = true := by
  intro r hr
  cases hd : r.date with
  | none => simp [inScope, hd] at hr
  | some d =>
    simp only [inScope, hd, decide_eq_true_eq] at hr ⊢
    exact le_trans hr h

theorem applyJobFilter_sublist (df : DataFrame) (jf : Option String) {l1 l2 : List Row}
    (h : l1 <+ l2) : applyJobFilter df jf l1 <+ applyJobFilter df jf l2 := by
  unfold applyJobFilter
  split
  · exact h.filter _
  · exact h

theorem applyInstFilter_sublist (df : DataFrame) (instf : Option String) {l1 l2 : List Row}
    (h : l1 <+ l2) : applyInstFilter df instf l1 <+ applyInstFilter df instf l2 := by
  unfold applyInstFilter
  split
  · split
    · split
      · exact h.filter _
      · split
        · exact h.filter _
        · exact h
    · exact h
  · exact h

theorem applyJobFilter_sublist_self (df : DataFrame) (jf : Option String) (l : List Row) :
    applyJobFilter df jf l <+ l := by
  unfold applyJobFilter
  split
  · exact List.filter_sublist l
  · exact List.Sublist.refl l

theorem applyInstFilter_sublist_self (df : DataFrame) (instf : Option String) (l : List Row) :
    applyInstFilter df instf l <+ l := by
  unfold applyInstFilter
  split
  · split
    · split
      · exact List.filter_sublist l
      · split
        · exact List.filter_sublist l
        · exact List.Sublist.refl l
    · exact List.Sublist.refl l
  · exact List.Sublist.refl l

theorem seniorRows_sublist (df : DataFrame) {l1 l2 : List Row} (h : l1 <+ l2) :
    seniorRows df l1 <+ seniorRows df l2 := by
  unfold seniorRows
  split
  · exact h.filter _
  · exact List.Sublist.refl []

theorem attendeesCount_mono (df : DataFrame) {l1 l2 : List Row} (h : l1 <+ l2) :
    attendeesCount df l1 ≤ attendeesCount df l2 := by
  unfold attendeesCount
  split
  · exact (h.filter _).length_le
  · exact (h.filter _).length_le

theorem womenCount_mono (df : DataFrame) {s1 s2 : List Row} (h : s1 <+ s2) :
    womenCount df s1 ≤ womenCount df s2 := by
  unfold womenCount
  by_cases h1 : s1.isEmpty = true
  · simp [h1]
  · have h1' : s1.isEmpty = false := by simpa using h1
    have hne : s1 ≠ [] := by intro e; rw [e] at h1'; simp at h1'
    obtain ⟨x, hx⟩ := List.exists_mem_of_ne_nil s1 hne
    have h2 : s2.isEmpty = false := by
      have hx2 : x ∈ s2 := h.subset hx
      cases s2 with
      | nil => cases hx2
      | cons a t => rfl
    simp only [h1', h2, Bool.not_false, Bool.and_true]
    cases hgm : df.hasGenderMy with
    | true => simpa using (h.filter (fun r => womenValue r.genderMy)).length_le
    | false =>
      cases hg : df.hasGender with
      | true => simpa using (h.filter (fun r => womenValue r.gender)).length_le
      | false => simp

theorem institutionsCount_mono (df : DataFrame) {l1 l2 : List Row} (h : l1 <+ l2) :
    institutionsCount df l1 ≤ institutionsCount df l2 := by
  unfold institutionsCount uniqueCompanies
  split
  · exact dedup_length_mono (h.filterMap _).subset
  · exact le_refl 0

theorem ccCount_mono (df : DataFrame) {l1 l2 : List Row} (h : l1 <+ l2) :
    ccCount df l1 ≤ ccCount df l2 := by
  unfold ccCount uniqueCompanies
  split
  · exact dedup_filter_length_mono _ (h.filterMap _).subset
  · exact le_refl 0

theorem collegesCount_mono (df : DataFrame) {l1 l2 : List Row} (h : l1 <+ l2) :
    collegesCount df l1 ≤ collegesCount df l2 := by
  unfold collegesCount uniqueCompanies
  split
  · exact dedup_length_mono ((h.filter _).filterMap _).subset
  · exact le_refl 0

theorem usStatesCount_mono (df : DataFrame) {l1 l2 : List Row} (h : l1 <+ l2) :
    usStatesCount df l1 ≤ usStatesCount df l2 := by
  unfold usStatesCount
  split
  · exact dedup_filter_length_mono _ (h.filterMap _).subset
  · exact le_refl 0

theorem startupsCount_mono (df : DataFrame) {l1 l2 : List Row} (h : l1 <+ l2) :
    startupsCount df l1 ≤ startupsCount df l2 := by
  unfold startupsCount
  split
  · exact (h.filter _).length_le
  · exact le_refl 0

/-! ## Claim theorems -/

/-- C2: for a fixed dataset, reference date and filters, and cutoff dates
    `c1 ≤ c2` (written `summit - d1 ≤ summit - d2`), each of the eight KPIs
    of `calculate_kpis` at the earlier cutoff is at most the same KPI at the
    later cutoff. -/
theorem claim_C2 (df : DataFrame) (d1 d2 summit : Int) (jf instf : Option String)
    (h : summit - d1 ≤ summit - d2) :
    (calculate_kpis df d1 summit jf instf).attendees
        ≤ (calculate_kpis df d2 summit jf instf).attendees
    ∧ (calculate_kpis df d1 summit jf instf).senior_leaders
        ≤ (calculate_kpis df d2 summit jf instf).senior_leaders
    ∧ (calculate_kpis df d1 summit jf instf).women_leaders
        ≤ (calculate_kpis df d2 summit jf instf).women_leaders
    ∧ (calculate_kpis df d1 summit jf instf).institutions
        ≤ (calculate_kpis df d2 summit jf instf).institutions
    ∧ (calculate_kpis df d1 summit jf instf).community_colleges
        ≤ (calculate_kpis df d2 summit jf instf).community_colleges
    ∧ (calculate_kpis df d1 summit jf instf).all_colleges
        ≤ (calculate_kpis df d2 summit jf instf).all_colleges
    ∧ (calculate_kpis df d1 summit jf instf).us_states
        ≤ (calculate_kpis df d2 summit jf instf).us_states
    ∧ (calculate_kpis df d1 summit jf instf).startups
        ≤ (calculate_kpis df d2 summit jf instf).startups := by
  have hbase : df.rows.filter (inScope (summit - d1)) <+ df.rows.filter (inScope (summit - d2)) :=
    List.monotone_filter_right df.rows (inScope_imp h)
  have hfil := applyJobFilter_sublist df jf hbase
  have hinst := applyInstFilter_sublist df instf hfil
  have hsen := seniorRows_sublist df hfil
  simp only [calculate_kpis]
  exact ⟨attendeesCount_mono df hfil, hsen.length_le, womenCount_mono df hsen,
    institutionsCount_mono df hinst, ccCount_mono df hinst, collegesCount_mono df hinst,
    usStatesCount_mono df hinst, startupsCount_mono df hfil⟩

/-- Witness for C2 at a concrete dataset and cutoff pair. -/
theorem claim_C2_witness :
    (calculate_kpis dfPair 10 5 none none).attendees
        ≤ (calculate_kpis dfPair 0 5 none none).attendees
    ∧ (calculate_kpis dfPair 10 5 none none).senior_leaders
        ≤ (calculate_kpis dfPair 0 5 none none).senior_leaders
    ∧ (calculate_kpis dfPair 10 5 none none).women_leaders
        ≤ (calculate_kpis dfPair 0 5 none none).women_leaders
    ∧ (calculate_kpis dfPair 10 5 none none).institutions
        ≤ (calculate_kpis dfPair 0 5 none none).institutions
    ∧ (calculate_kpis dfPair 10 5 none none).community_colleges
        ≤ (calculate_kpis dfPair 0 5 none none).community_colleges
    ∧ (calculate_kpis dfPair 10 5 none none).all_colleges
        ≤ (calculate_kpis dfPair 0 5 none none).all_colleges
    ∧ (calculate_kpis dfPair 10 5 none none).us_states
        ≤ (calculate_kpis dfPair 0 5 none none).us_states
    ∧ (calculate_kpis dfPair 10 5 none none).startups
        ≤ (calculate_kpis dfPair 0 5 none none).startups :=
  claim_C2 dfPair 10 0 5 none none (by decide)

/-- C9: the displayed percentage change is `(b-a)/a*100` when `a > 0`, `0`
    when `a = 0` and `b = 0`, and `100` when `a = 0` and `b > 0`. -/
theorem claim_C9 (a b : Nat) :
    (0 < a → pct_change a b = (((b : ℚ) - (a : ℚ)) / (a : ℚ)) * 100)
    ∧ (a = 0 → b = 0 → pct_change a b = 0)
    ∧ (a = 0 → 0 < b → pct_change a b = 100) := by
  refine ⟨fun h => ?_, fun ha hb => ?_, fun ha hb => ?_⟩
  · simp [pct_change, h]
  · subst ha; subst hb; simp [pct_change]
  · subst ha
    have hb' : b ≠ 0 := Nat.pos_iff_ne_zero.mp hb
    simp [pct_change, hb']

/-- Witness for C9 at the pairs (2,3), (0,0) and (0,5). -/
theorem claim_C9_witness :
    pct_change 2 3 = (((3 : ℚ) - (2 : ℚ)) / (2 : ℚ)) * 100
    ∧ pct_change 0 0 = 0 ∧ pct_change 0 5 = 100 :=
  ⟨(claim_C9 2 3).1 (by decide), (claim_C9 0 0).2.1 rfl rfl, (claim_C9 0 5).2.2 rfl (by decide)⟩

/-- C10: a missing (`None`) or empty-string institution name yields `false`
    from `is_community_college`; the embedded function is total, so no error
    can be raised on these inputs. -/
theorem claim_C10 :
    is_community_college none = false ∧ is_community_college (some emptyName) = false := by
  decide

/-- C1 counterexample: with a job-classification filter and an
    institution-type filter both set, the code's Institutions count (filters
    chained, line 368) differs from the value the claim predicts (filters
    independent, institution condition applied to the cutoff base): on
    `dfPair` the code yields 1 but the claimed independent filtering yields 2. -/
theorem claim_C1_counterexample :
    (calculate_kpis dfPair 5 10 (some jcHEfac) (some kwHigherEducation)).institutions = 1
    ∧ (calculate_kpis_independent dfPair 5 10 (some jcHEfac) (some kwHigherEducation)).institutions
        = 2 := by
  decide

theorem instChain_eq (df : DataFrame) (c : Int) (jf instf : String)
    (hjob : jobFilterActive df (some jf) = true)
    (hinst : instFilterActive df (some instf) = true) :
    applyInstFilter df (some instf) (applyJobFilter df (some jf) (df.rows.filter (inScope c)))
      = df.rows.filter (fun r => instCond instf r && ((r.jobClass == some jf) && inScope c r)) := by
  simp only [applyJobFilter, applyInstFilter, hjob, hinst, if_true]
  cases hHE : instf == kwHigherEducation with
  | true => simp only [hHE, if_true, List.filter_filter, instCond]
  | false =>
    cases hK : instf == kwK12dash with
    | true =>
      simp only [hHE, hK, if_true, List.filter_filter, instCond, Bool.false_eq_true, if_false]
    | false =>
      simp only [hHE, hK, List.filter_filter, instCond, Bool.false_eq_true, if_false,
        Bool.true_and]

/-- C1 amended: when both a job-classification filter and an institution-type
    filter are set, the subset used for the Institutions, Community Colleges,
    All Colleges and U.S. States counts is obtained by applying the
    institution-type condition ON TOP OF the job-classification restriction
    (the two filters are chained, both over the cutoff-restricted rows): each
    of those four KPIs equals its count over the rows satisfying the
    conjunction of the cutoff condition, the job-classification equality and
    the institution-type condition. -/
theorem claim_C1_amended (df : DataFrame) (d s : Int) (jf instf : String)
    (hjob : jobFilterActive df (some jf) = true)
    (hinst : instFilterActive df (some instf) = true) :
    (calculate_kpis df d s (some jf) (some instf)).institutions
        = institutionsCount df (df.rows.filter
            (fun r => instCond instf r && ((r.jobClass == some jf) && inScope (s - d) r)))
    ∧ (calculate_kpis df d s (some jf) (some instf)).community_colleges
        = ccCount df (df.rows.filter
            (fun r => instCond instf r && ((r.jobClass == some jf) && inScope (s - d) r)))
    ∧ (calculate_kpis df d s (some jf) (some instf)).all_colleges
        = collegesCount df (df.rows.filter
            (fun r => instCond instf r && ((r.jobClass == some jf) && inScope (s - d) r)))
    ∧ (calculate_kpis df d s (some jf) (some instf)).us_states
        = usStatesCount df (df.rows.filter
            (fun r => instCond instf r && ((r.jobClass == some jf) && inScope (s - d) r))) := by
  have hc := instChain_eq df (s - d) jf instf hjob hinst
  simp only [calculate_kpis]
  rw [hc]
  exact ⟨rfl, rfl, rfl, rfl⟩

/-- Witness for the amended C1 at the concrete two-row dataset. -/
theorem claim_C1_amended_witness :
    (calculate_kpis dfPair 5 10 (some jcHEfac) (some kwHigherEducation)).institutions
        = institutionsCount dfPair (dfPair.rows.filter
            (fun r => instCond kwHigherEducation r
              && ((r.jobClass == some jcHEfac) && inScope (10 - 5) r)))
    ∧ (calculate_kpis dfPair 5 10 (some jcHEfac) (some kwHigherEducation)).community_colleges
        = ccCount dfPair (dfPair.rows.filter
            (fun r => instCond kwHigherEducation r
              && ((r.jobClass == some jcHEfac) && inScope (10 - 5) r)))
    ∧ (calculate_kpis dfPair 5 10 (some jcHEfac) (some kwHigherEducation)).all_colleges
        = collegesCount dfPair (dfPair.rows.filter
            (fun r => instCond kwHigherEducation r
              && ((r.jobClass == some jcHEfac) && inScope (10 - 5) r)))
    ∧ (calculate_kpis dfPair 5 10 (some jcHEfac) (some kwHigherEducation)).us_states
        = usStatesCount dfPair (dfPair.rows.filter
            (fun r => instCond kwHigherEducation r
              && ((r.jobClass == some jcHEfac) && inScope (10 - 5) r))) :=
  claim_C1_amended dfPair 5 10 jcHEfac kwHigherEducation (by decide) (by decide)

theorem mapped_distinct_le {α β : Type} [DecidableEq α] [DecidableEq β]
    (f : α → β) (p : β → Bool) (l : List α) :
    ((l.map f).dedup.filter p).length ≤ (l.dedup.filter (fun a => p (f a))).length := by
  rw [← List.toFinset_card_of_nodup ((l.map f).nodup_dedup.filter p),
      ← List.toFinset_card_of_nodup (l.nodup_dedup.filter (fun a => p (f a)))]
  have h1 : ((l.map f).dedup.filter p).toFinset
      = (l.toFinset.image f).filter (fun b => p b = true) := by
    ext x
    simp [List.mem_filter, List.mem_dedup, List.mem_toFinset, and_comm]
  have h2 : (l.dedup.filter (fun a => p (f a))).toFinset
      = l.toFinset.filter (fun a => p (f a) = true) := by
    ext x
    simp [List.mem_filter, List.mem_dedup, List.mem_toFinset]
  rw [h1, h2, Finset.filter_image]
  exact Finset.card_image_le

/-- C4 amended: the U.S. States KPI equals the number of distinct RAW state
    codes among the institution-filtered in-scope rows whose UPPERCASE lies in
    the fixed set of 50 state codes plus DC; raw codes that differ only in
    letter case are counted separately, so the KPI is always at least the
    distinct-uppercased count that the original claim described. -/
theorem claim_C4_amended (df : DataFrame) (d s : Int) (jf instf : Option String)
    (hstate : df.hasState = true) :
    (calculate_kpis df d s jf instf).us_states
        = (((applyInstFilter df instf (applyJobFilter df jf
              (df.rows.filter (inScope (s - d))))).filterMap (fun r => r.state)).dedup.filter
            (fun code => us_state_codes.contains (pyUpper code))).length
    ∧ usStatesUppercasedDistinct (applyInstFilter df instf (applyJobFilter df jf
          (df.rows.filter (inScope (s - d)))))
        ≤ (calculate_kpis df d s jf instf).us_states := by
  constructor
  · simp only [calculate_kpis, usStatesCount, hstate, if_true]
  · simp only [calculate_kpis, usStatesCount, usStatesUppercasedDistinct, hstate, if_true]
    exact mapped_distinct_le pyUpper (fun code => us_state_codes.contains code) _

/-- Witness for the amended C4 at the concrete mixed-case dataset. -/
theorem claim_C4_amended_witness :
    (calculate_kpis dfPair 0 10 none none).us_states
        = (((applyInstFilter dfPair none (applyJobFilter dfPair none
              (dfPair.rows.filter (inScope (10 - 0))))).filterMap (fun r => r.state)).dedup.filter
            (fun code => us_state_codes.contains (pyUpper code))).length
    ∧ usStatesUppercasedDistinct (applyInstFilter dfPair none (applyJobFilter dfPair none
          (dfPair.rows.filter (inScope (10 - 0)))))
        ≤ (calculate_kpis dfPair 0 10 none none).us_states :=
  claim_C4_amended dfPair 0 10 none none rfl

/-- C4 counterexample: on rows whose raw state codes are "ca" and "CA", the
    code's U.S. States KPI is 2 (raw codes deduplicated before uppercasing)
    while the claim's distinct-uppercased count is 1. -/
theorem claim_C4_counterexample :
    (calculate_kpis dfPair 0 10 none none).us_states = 2
    ∧ usStatesUppercasedDistinct (dfPair.rows.filter (inScope (10 - 0))) = 1 := by
  decide

/-- C8: a missing Title, Gender, Company Name, state-code or Job
    Classification column degrades the KPIs backed by it to zero, and a
    Company Name column that is present but entirely null yields
    Institutions = Community Colleges = All Colleges = 0.  The embedded
    `calculate_kpis` is total, so a result is always returned — no error. -/
theorem claim_C8 (df : DataFrame) (d s : Int) (jf instf : Option String) :
    (df.hasTitle = false →
      (calculate_kpis df d s jf instf).senior_leaders = 0
      ∧ (calculate_kpis df d s jf instf).women_leaders = 0)
    ∧ (df.hasGenderMy = false → df.hasGender = false →
      (calculate_kpis df d s jf instf).women_leaders = 0)
    ∧ (df.hasCompany = false →
      (calculate_kpis df d s jf instf).institutions = 0
      ∧ (calculate_kpis df d s jf instf).community_colleges = 0
      ∧ (calculate_kpis df d s jf instf).all_colleges = 0)
    ∧ (df.hasState = false → (calculate_kpis df d s jf instf).us_states = 0)
    ∧ (df.hasJobClass = false → (calculate_kpis df d s jf instf).startups = 0)
    ∧ (df.hasCompany = true → (∀ r ∈ df.rows, r.company = none) →
      (calculate_kpis df d s jf instf).institutions = 0
      ∧ (calculate_kpis df d s jf instf).community_colleges = 0
      ∧ (calculate_kpis df d s jf instf).all_colleges = 0) := by
  refine ⟨fun ht => ?_, fun hgm hg => ?_, fun hco => ?_, fun hst => ?_, fun hjc => ?_,
    fun hco hnull => ?_⟩
  · constructor <;> simp [calculate_kpis, seniorRows, womenCount, ht]
  · simp [calculate_kpis, womenCount, hgm, hg]
  · refine ⟨?_, ?_, ?_⟩ <;>
      simp [calculate_kpis, institutionsCount, ccCount, collegesCount, hco]
  · simp [calculate_kpis, usStatesCount, hst]
  · simp [calculate_kpis, startupsCount, hjc]
  · have hchain : applyInstFilter df instf (applyJobFilter df jf
        (df.rows.filter (inScope (s - d)))) <+ df.rows :=
      ((applyInstFilter_sublist_self df instf _).trans
        (applyJobFilter_sublist_self df jf _)).trans (List.filter_sublist df.rows)
    have hsub : ∀ r ∈ applyInstFilter df instf (applyJobFilter df jf
        (df.rows.filter (inScope (s - d)))), r.company = none :=
      fun r hr => hnull r (hchain.subset hr)
    have hfm : (applyInstFilter df instf (applyJobFilter df jf
        (df.rows.filter (inScope (s - d))))).filterMap (fun r => r.company) = [] :=
      List.filterMap_eq_nil_iff.mpr hsub
    have hcol : (applyInstFilter df instf (applyJobFilter df jf
        (df.rows.filter (inScope (s - d))))).filter collegeNameMatch = [] := by
      rw [List.filter_eq_nil_iff]
      intro r hr
      have hc := hsub r hr
      simp only [collegeNameMatch, hc, Option.getD_none]
      decide
    refine ⟨?_, ?_, ?_⟩
    · simp [calculate_kpis, institutionsCount, uniqueCompanies, hco, hfm]
    · simp [calculate_kpis, ccCount, uniqueCompanies, hco, hfm]
    · simp [calculate_kpis, collegesCount, uniqueCompanies, hco, hcol]

/-- Witness for C8: a dataset with every optional column absent, and one with
    a present but all-null Company Name column. -/
theorem claim_C8_witness :
    ((calculate_kpis dfBare 0 0 none none).senior_leaders = 0
      ∧ (calculate_kpis dfBare 0 0 none none).women_leaders = 0)
    ∧ ((calculate_kpis dfNullCompany 0 0 none none).institutions = 0
      ∧ (calculate_kpis dfNullCompany 0 0 none none).community_colleges = 0
      ∧ (calculate_kpis dfNullCompany 0 0 none none).all_colleges = 0) :=
  ⟨(claim_C8 dfBare 0 0 none none).1 rfl,
   (claim_C8 dfNullCompany 0 0 none none).2.2.2.2.2 rfl (by decide)⟩

theorem cumulate_chain_cons (l : List (Int × Nat)) :
    ∀ (acc : Nat) (x : Int × Nat), x.2 ≤ acc →
      List.Chain' (fun a b => a.2 ≤ b.2) (x :: cumulate l acc) := by
  induction l with
  | nil => intro acc x _; simp [cumulate]
  | cons hd tl ih =>
    intro acc x hx
    obtain ⟨k, c⟩ := hd
    simp only [cumulate, List.chain'_cons]
    exact ⟨le_trans hx (Nat.le_add_right acc c), ih (acc + c) (k, acc + c) (le_refl _)⟩

theorem cumulate_chain (l : List (Int × Nat)) (acc : Nat) :
    List.Chain' (fun a b => a.2 ≤ b.2) (cumulate l acc) := by
  cases l with
  | nil => simp [cumulate]
  | cons hd tl =>
    obtain ⟨k, c⟩ := hd
    simp only [cumulate]
    exact cumulate_chain_cons tl (acc + c) (k, acc + c) (le_refl _)

theorem cumulate_getLastD (l : List (Int × Nat)) :
    ∀ acc : Nat, ((cumulate l acc).map Prod.snd).getLastD acc
      = acc + (l.map Prod.snd).sum := by
  induction l with
  | nil => intro acc; simp [cumulate]
  | cons hd tl ih =>
    intro acc
    obtain ⟨k, c⟩ := hd
    simp only [cumulate, List.map_cons, List.getLastD_cons, List.sum_cons]
    rw [ih (acc + c), Nat.add_assoc]

theorem insertDesc_perm (x : Int) (l : List Int) : List.Perm (insertDesc x l) (x :: l) := by
  induction l with
  | nil => exact List.Perm.refl [x]
  | cons y ys ih =>
    simp only [insertDesc]
    split
    · exact List.Perm.refl _
    · exact (ih.cons y).trans (List.Perm.swap x y ys)

theorem sortDesc_perm (l : List Int) : List.Perm (sortDesc l) l := by
  induction l with
  | nil => exact List.Perm.refl []
  | cons x xs ih =>
    simp only [sortDesc, List.foldr_cons] at ih ⊢
    exact (insertDesc_perm x (List.foldr insertDesc [] xs)).trans (ih.cons x)

theorem filterMap_length_of_isSome {α β : Type} (f : α → Option β) (l : List α)
    (h : ∀ x ∈ l, (f x).isSome = true) : (l.filterMap f).length = l.length := by
  induction l with
  | nil => rfl
  | cons x xs ih =>
    obtain ⟨y, hy⟩ := Option.isSome_iff_exists.mp (h x (List.mem_cons_self x xs))
    rw [List.filterMap_cons, hy]
    simp only [List.length_cons]
    rw [ih (fun z hz => h z (List.mem_cons_of_mem x hz))]

theorem trendRows_date_isSome (df : DataFrame) (c : Int) (jf : Option String) :
    ∀ r ∈ applyJobFilter df jf (df.rows.filter (inScope c)), (r.date).isSome = true := by
  intro r hr
  have hmem : r ∈ df.rows.filter (inScope c) :=
    (applyJobFilter_sublist_self df jf _).subset hr
  have hsc : inScope c r = true := List.of_mem_filter hmem
  cases hd : r.date with
  | none =>
    simp only [inScope, hd] at hsc
    exact absurd hsc Bool.false_ne_true
  | some d => simp [hd]

theorem trendSeries_chain (df : DataFrame) (days s : Int) (jf : Option String) :
    List.Chain' (fun a b => a.2 ≤ b.2) (trendSeries df days s jf) := by
  simp only [trendSeries]
  exact cumulate_chain _ 0

theorem trendSeries_last (df : DataFrame) (days s : Int) (jf : Option String) :
    ((trendSeries df days s jf).map Prod.snd).getLastD 0
      = (applyJobFilter df jf (df.rows.filter (inScope (s - days)))).length := by
  simp only [trendSeries]
  rw [cumulate_getLastD, List.map_map]
  have hperm := (sortDesc_perm (((applyJobFilter df jf (df.rows.filter
      (inScope (s - days)))).filterMap (fun r => r.date.map (fun d => s - d))).dedup)).map
    (fun k => ((applyJobFilter df jf (df.rows.filter
      (inScope (s - days)))).filterMap (fun r => r.date.map (fun d => s - d))).count k)
  rw [show (Prod.snd ∘ fun k => (k, ((applyJobFilter df jf (df.rows.filter
      (inScope (s - days)))).filterMap (fun r => r.date.map (fun d => s - d))).count k))
      = (fun k => ((applyJobFilter df jf (df.rows.filter
        (inScope (s - days)))).filterMap (fun r => r.date.map (fun d => s - d))).count k)
    from rfl]
  rw [hperm.sum_eq, List.sum_map_count_dedup_eq_length, Nat.zero_add]
  apply filterMap_length_of_isSome
  intro r hr
  rw [Option.isSome_map']
  exact trendRows_date_isSome df (s - days) jf r hr

/-- C5: for every pair of datasets, reference dates, days-before cutoff and
    optional job filter, each cumulative series built by
    `create_daily_registration_chart` is non-decreasing along the stored axis
    order, and its final cumulative value equals the total number of rows of
    that dataset passing the cutoff and the job filter. -/
theorem claim_C5 (df1 df2 : DataFrame) (days s1 s2 : Int) (jf : Option String) :
    List.Chain' (fun a b => a.2 ≤ b.2)
        (create_daily_registration_chart df1 df2 days s1 s2 jf).1
    ∧ List.Chain' (fun a b => a.2 ≤ b.2)
        (create_daily_registration_chart df1 df2 days s1 s2 jf).2
    ∧ ((create_daily_registration_chart df1 df2 days s1 s2 jf).1.map Prod.snd).getLastD 0
        = (applyJobFilter df1 jf (df1.rows.filter (inScope (s1 - days)))).length
    ∧ ((create_daily_registration_chart df1 df2 days s1 s2 jf).2.map Prod.snd).getLastD 0
        = (applyJobFilter df2 jf (df2.rows.filter (inScope (s2 - days)))).length :=
  ⟨trendSeries_chain df1 days s1 jf, trendSeries_chain df2 days s2 jf,
   trendSeries_last df1 days s1 jf, trendSeries_last df2 days s2 jf⟩

/-! ## Substring, suffix and token lemmas for the classifier claims -/

theorem isPfx_append (l t : List Char) : isPfx l (l ++ t) = true := by
  induction l with
  | nil => rfl
  | cons a as ih => simp [isPfx, ih]

theorem isPfx_refl (l : List Char) : isPfx l l = true := by
  have h := isPfx_append l []
  rwa [List.append_nil] at h

theorem isSubstr_of_isPfx {pat s : List Char} (h : isPfx pat s = true) :
    isSubstr pat s = true := by
  cases s with
  | nil =>
    cases pat with
    | nil => rfl
    | cons a as => simp [isPfx] at h
  | cons c rest => simp [isSubstr, h]

theorem isSubstr_refl (l : List Char) : isSubstr l l = true :=
  isSubstr_of_isPfx (isPfx_refl l)

theorem isSubstr_append_left (pat t : List Char) (h : isSubstr pat t = true)
    (s : List Char) : isSubstr pat (s ++ t) = true := by
  induction s with
  | nil => simpa using h
  | cons c cs ih =>
    rw [List.cons_append]
    simp only [isSubstr, Bool.or_eq_true]
    exact Or.inr ih

theorem isSfx_self (l : List Char) : isSfx l l = true := by
  cases l with
  | nil => rfl
  | cons c rest => simp [isSfx]

theorem isSubstr_of_isSfx {pat : List Char} : ∀ {s : List Char}, isSfx pat s = true →
    isSubstr pat s = true := by
  intro s
  induction s with
  | nil =>
    intro h
    simp only [isSfx] at h
    simpa [isSubstr] using h
  | cons c rest ih =>
    intro h
    simp only [isSfx, Bool.or_eq_true] at h
    rcases h with h | h
    · have he : pat = c :: rest := by simpa using h
      rw [he]
      exact isSubstr_refl _
    · simp only [isSubstr, Bool.or_eq_true]
      exact Or.inr (ih h)

theorem isSfx_of_cons {c : Char} {pat : List Char} : ∀ {s : List Char},
    isSfx (c :: pat) s = true → isSfx pat s = true := by
  intro s
  induction s with
  | nil => intro h; simp [isSfx] at h
  | cons d rest ih =>
    intro h
    simp only [isSfx, Bool.or_eq_true] at h ⊢
    rcases h with h | h
    · have he : c :: pat = d :: rest := by simpa using h
      have he2 : pat = rest := by injection he
      right
      rw [he2]
      exact isSfx_self rest
    · exact Or.inr (ih h)

theorem splitWsAux_substr : ∀ (l acc p : List Char),
    p ∈ splitWsAux l acc → isSubstr p (acc.reverse ++ l) = true := by
  intro l
  induction l with
  | nil =>
    intro acc p hp
    simp only [splitWsAux] at hp
    split at hp
    · cases hp
    · simp only [List.mem_singleton] at hp
      subst hp
      rw [List.append_nil]
      exact isSubstr_refl _
  | cons c cs ih =>
    intro acc p hp
    simp only [splitWsAux] at hp
    split at hp
    · split at hp
      · have h2 := ih [] p hp
        rw [List.reverse_nil, List.nil_append] at h2
        have h3 : isSubstr p (c :: cs) = true := by
          simp only [isSubstr, Bool.or_eq_true]
          exact Or.inr h2
        exact isSubstr_append_left p (c :: cs) h3 acc.reverse
      · rcases List.mem_cons.mp hp with h | h
        · subst h
          exact isSubstr_of_isPfx (isPfx_append acc.reverse (c :: cs))
        · have h2 := ih [] p h
          rw [List.reverse_nil, List.nil_append] at h2
          have h3 : isSubstr p (c :: cs) = true := by
            simp only [isSubstr, Bool.or_eq_true]
            exact Or.inr h2
          exact isSubstr_append_left p (c :: cs) h3 acc.reverse
    · have h2 := ih (c :: acc) p hp
      rw [List.reverse_cons, List.append_assoc] at h2
      simpa using h2

theorem pySplit_substr {p l : List Char} (h : p ∈ pySplit l) : isSubstr p l = true := by
  have h2 := splitWsAux_substr l [] p h
  simpa using h2

theorem ccGuard_substr {nu : String} (h : ccGuard nu = true) :
    isSubstr ccChars nu.data = true := by
  simp only [ccGuard, Bool.or_eq_true] at h
  rcases h with (h | h) | h
  · have hm : ccChars ∈ pySplit nu.data := by simpa using h
    exact pySplit_substr hm
  · exact isSubstr_of_isSfx (isSfx_of_cons h)
  · exact isSubstr_of_isSfx h

theorem is_cc_eq_ccCheck (name : String) :
    is_community_college (some name) = ccCheck (pyStrip (pyUpper name)) := by
  by_cases h : name = ""
  · subst h
    decide
  · have h' : (name == "") = false := by simpa using h
    simp [is_community_college, h']

theorem ccPatternHit_of_not_substr {nu p : String}
    (h : isSubstr (pyUpper p).data nu.data = false) : ccPatternHit nu p = false := by
  simp [ccPatternHit, h]

theorem ccPatternHit_CC (nu : String) :
    ccPatternHit nu patCC = if isSubstr ccChars nu.data then ccGuard nu else false := by
  have hbeq : (pyUpper patCC == patCC) = true := by decide
  have hdata : (pyUpper patCC).data = ccChars := rfl
  by_cases hs : isSubstr ccChars nu.data = true
  · simp [ccPatternHit, hdata, hbeq, hs]
  · have hs' : isSubstr ccChars nu.data = false := by simpa using hs
    simp [ccPatternHit, hdata, hs']

/-- C6: `is_community_college("ABC")` is false and
    `is_community_college("Parkland CC")` is true; and for every name that
    matches neither the known-college list nor any pattern other than the
    generic "CC", the classifier returns true exactly when the normalized
    name contains "CC" as a whitespace-separated token, ends with " CC", or
    ends with "CC" (the `ccGuard` condition). -/
theorem claim_C6 :
    (∀ name : String,
      KNOWN_COMMUNITY_COLLEGES.any
          (fun known_cc => pyUpper known_cc == pyStrip (pyUpper name)) = false →
      (∀ p ∈ CC_PATTERNS, p ≠ patCC →
          isSubstr (pyUpper p).data (pyStrip (pyUpper name)).data = false) →
      (is_community_college (some name) = true
        ↔ ccGuard (pyStrip (pyUpper name)) = true))
    ∧ is_community_college (some nameABC) = false
    ∧ is_community_college (some nameParklandCC) = true := by
  refine ⟨?_, by decide, by decide⟩
  intro name hknown hpat
  rw [is_cc_eq_ccCheck]
  have hothers : ∀ p ∈ CC_PATTERNS, p ≠ patCC →
      ccPatternHit (pyStrip (pyUpper name)) p = false :=
    fun p hp hne => ccPatternHit_of_not_substr (hpat p hp hne)
  have hred : ccCheck (pyStrip (pyUpper name))
      = if isSubstr ccChars (pyStrip (pyUpper name)).data
        then ccGuard (pyStrip (pyUpper name)) else false := by
    simp only [ccCheck, hknown, Bool.false_eq_true, if_false]
    simp only [CC_PATTERNS, List.any_cons, List.any_nil,
      hothers patCommunityCollege (by decide) (by decide),
      hothers patTechnicalCollege (by decide) (by decide),
      hothers patJuniorCollege (by decide) (by decide),
      hothers patCommColl (by decide) (by decide),
      hothers patCommDotCollege (by decide) (by decide),
      hothers patTechCollege (by decide) (by decide),
      hothers patCityCollege (by decide) (by decide),
      hothers patCountyCollege (by decide) (by decide),
      Bool.false_or, Bool.or_false]
    exact ccPatternHit_CC (pyStrip (pyUpper name))
  rw [hred]
  constructor
  · intro h
    by_cases hs : isSubstr ccChars (pyStrip (pyUpper name)).data = true
    · simpa [hs] using h
    · have hs' : isSubstr ccChars (pyStrip (pyUpper name)).data = false := by simpa using hs
      rw [hs'] at h
      simp at h
  · intro h
    have hs : isSubstr ccChars (pyStrip (pyUpper name)).data = true := ccGuard_substr h
    simp [hs, h]

/-- Witness for C6's general part at the name "Parkland CC". -/
theorem claim_C6_witness :
    ccGuard (pyStrip (pyUpper nameParklandCC)) = true :=
  (claim_C6.1 nameParklandCC (by decide) (by decide)).mp claim_C6.2.2

/-! ## Normalization lemmas for case/whitespace invariance -/

theorem upChar_ws {c : Char} (h : isWsChar c = true) : upChar c = c := by
  have hlt : ('a' ≤ c && c ≤ 'z') = false := by
    simp only [isWsChar, Bool.or_eq_true, beq_iff_eq] at h
    have hc : c = ' ' ∨ c = '\t' ∨ c = '\n' ∨ c = '\r' ∨ c = '\x0b' ∨ c = '\x0c' := by
      tauto
    rcases hc with h1 | h1 | h1 | h1 | h1 | h1 <;> subst h1 <;> decide
  simp [upChar, hlt]

theorem dropWhile_ws_append (u l : List Char) (hu : ∀ c ∈ u, isWsChar c = true) :
    (u ++ l).dropWhile isWsChar = l.dropWhile isWsChar := by
  induction u with
  | nil => rfl
  | cons c cs ih =>
    rw [List.cons_append, List.dropWhile_cons, if_pos (hu c (List.mem_cons_self c cs))]
    exact ih fun d hd => hu d (List.mem_cons_of_mem c hd)

theorem dropWhile_ws_all (u : List Char) (hu : ∀ c ∈ u, isWsChar c = true) :
    u.dropWhile isWsChar = [] := by
  have h := dropWhile_ws_append u [] hu
  simpa using h

theorem dropWhile_append_cases (p : Char → Bool) (u : List Char) :
    ∀ l : List Char, (l ++ u).dropWhile p
      = if (l.dropWhile p).isEmpty then u.dropWhile p else l.dropWhile p ++ u := by
  intro l
  induction l with
  | nil => simp
  | cons c cs ih =>
    rw [List.cons_append, List.dropWhile_cons, List.dropWhile_cons]
    by_cases hc : p c = true
    · rw [if_pos hc, if_pos hc, ih]
    · have hc' : p c = false := by simpa using hc
      rw [if_neg hc, if_neg hc]
      simp

theorem pyStripList_ws_append (u1 l u2 : List Char)
    (h1 : ∀ c ∈ u1, isWsChar c = true) (h2 : ∀ c ∈ u2, isWsChar c = true) :
    pyStripList (u1 ++ l ++ u2) = pyStripList l := by
  unfold pyStripList
  rw [List.append_assoc, dropWhile_ws_append u1 (l ++ u2) h1,
    dropWhile_append_cases isWsChar u2 l]
  by_cases he : (l.dropWhile isWsChar).isEmpty = true
  · rw [if_pos he, dropWhile_ws_all u2 h2]
    have hle : l.dropWhile isWsChar = [] := by
      cases hl : l.dropWhile isWsChar with
      | nil => rfl
      | cons a t => rw [hl] at he; simp at he
    rw [hle]
  · rw [if_neg he, List.reverse_append,
      dropWhile_ws_append u2.reverse _ (fun c hc => h2 c (List.mem_reverse.mp hc))]

/-- C7: `is_community_college` is invariant under changing letter case and
    under adding or removing leading/trailing whitespace: for any whitespace
    strings `w1`, `w2` and any case variant `caseVar` of `name` (same
    uppercasing), the classifier agrees on `w1 ++ caseVar ++ w2` and `name`. -/
theorem claim_C7 (name caseVar w1 w2 : String)
    (hw1 : ∀ c ∈ w1.data, isWsChar c = true) (hw2 : ∀ c ∈ w2.data, isWsChar c = true)
    (hcase : pyUpper caseVar = pyUpper name) :
    is_community_college (some (w1 ++ caseVar ++ w2)) = is_community_college (some name) := by
  rw [is_cc_eq_ccCheck, is_cc_eq_ccCheck]
  have hu1 : ∀ c ∈ w1.data.map upChar, isWsChar c = true := by
    intro c hc
    obtain ⟨d, hd, rfl⟩ := List.mem_map.mp hc
    rw [upChar_ws (hw1 d hd)]
    exact hw1 d hd
  have hu2 : ∀ c ∈ w2.data.map upChar, isWsChar c = true := by
    intro c hc
    obtain ⟨d, hd, rfl⟩ := List.mem_map.mp hc
    rw [upChar_ws (hw2 d hd)]
    exact hw2 d hd
  have hkey : pyStripList (pyUpper (w1 ++ caseVar ++ w2)).data
      = pyStripList (pyUpper name).data := by
    have hdata : (pyUpper (w1 ++ caseVar ++ w2)).data
        = w1.data.map upChar ++ caseVar.data.map upChar ++ w2.data.map upChar := by
      simp [pyUpper, List.map_append]
    rw [hdata, pyStripList_ws_append _ _ _ hu1 hu2]
    have hcv : caseVar.data.map upChar = name.data.map upChar := by
      have h := congrArg String.data hcase
      simpa [pyUpper] using h
    rw [hcv]
    rfl
  simp only [pyStrip]
  rw [hkey]

/-- Witness for C7: `"  MIAMI DADE COLLEGE  "` against `"Miami Dade College"`. -/
theorem claim_C7_witness :
    is_community_college (some (wsTwoSpaces ++ nameMiamiUpper ++ wsTwoSpaces))
      = is_community_college (some nameMiami) :=
  claim_C7 nameMiami nameMiamiUpper wsTwoSpaces wsTwoSpaces (by decide) (by decide) (by decide)

/-! ## Lemmas about the fixed-format date parsing -/

theorem digitChar_ne_dash {c : Char} (h : isDigitChar c = true) : (c == '-') = false := by
  cases hb : c == '-' with
  | false => rfl
  | true =>
    have he : c = '-' := by simpa using hb
    subst he
    exact absurd h (by decide)

theorem digitChar_ne_slash {c : Char} (h : isDigitChar c = true) : (c == '/') = false := by
  cases hb : c == '/' with
  | false => rfl
  | true =>
    have he : c = '/' := by simpa using hb
    subst he
    exact absurd h (by decide)

theorem splitOnChar_no_sep (sep : Char) : ∀ l : List Char,
    (∀ c ∈ l, (c == sep) = false) → splitOnChar sep l = [l] := by
  intro l
  induction l with
  | nil => intro _; rfl
  | cons c cs ih =>
    intro h
    simp only [splitOnChar, h c (List.mem_cons_self c cs), Bool.false_eq_true, if_false]
    rw [ih (fun d hd => h d (List.mem_cons_of_mem c hd))]

theorem splitOnChar_word_sep (sep : Char) (xs rest : List Char)
    (h : ∀ c ∈ xs, (c == sep) = false) :
    splitOnChar sep (xs ++ sep :: rest) = xs :: splitOnChar sep rest := by
  induction xs with
  | nil =>
    rw [List.nil_append]
    simp [splitOnChar]
  | cons x xs' ih =>
    rw [List.cons_append]
    simp only [splitOnChar, h x (List.mem_cons_self x xs'), Bool.false_eq_true, if_false]
    rw [ih (fun d hd => h d (List.mem_cons_of_mem x hd))]

theorem amb_shape (v : String) (hv : ambiguousSlashForm v = true) :
    ∃ a b c d e f g h : Char, v.data = [a, b, '/', c, d, '/', e, f, g, h]
      ∧ isDigitChar a = true ∧ isDigitChar b = true ∧ isDigitChar c = true
      ∧ isDigitChar d = true ∧ isDigitChar e = true ∧ isDigitChar f = true
      ∧ isDigitChar g = true ∧ isDigitChar h = true
      ∧ (parseWithFormat DateFmt.mdY v).isSome = true := by
  unfold ambiguousSlashForm at hv
  split at hv
  · next a b c d e f g h heq =>
    obtain ⟨⟨⟨⟨⟨⟨⟨⟨⟨ha, hb⟩, hc⟩, hd⟩, he⟩, hf⟩, hg⟩, hh⟩, hmdY⟩, _⟩ :=
      by simpa only [Bool.and_eq_true] using hv
    exact ⟨a, b, c, d, e, f, g, h, heq, ha, hb, hc, hd, he, hf, hg, hh,
      by simpa using hmdY⟩
  · exact absurd hv Bool.false_ne_true

theorem amb_parseYmd_none (v : String) (h : ambiguousSlashForm v = true) :
    parseWithFormat DateFmt.Ymd v = none := by
  obtain ⟨a, b, c, d, e, f, g, hh, hdata, ha, hb, hc, hd', he, hf, hg, hh2, _⟩ :=
    amb_shape v h
  have hnd : ∀ ch ∈ v.data, (ch == '-') = false := by
    rw [hdata]
    intro ch hch
    simp only [List.mem_cons, List.not_mem_nil, or_false] at hch
    rcases hch with rfl | rfl | rfl | rfl | rfl | rfl | rfl | rfl | rfl | rfl
    · exact digitChar_ne_dash ha
    · exact digitChar_ne_dash hb
    · decide
    · exact digitChar_ne_dash hc
    · exact digitChar_ne_dash hd'
    · decide
    · exact digitChar_ne_dash he
    · exact digitChar_ne_dash hf
    · exact digitChar_ne_dash hg
    · exact digitChar_ne_dash hh2
  simp only [parseWithFormat]
  rw [splitOnChar_no_sep '-' v.data hnd]

theorem amb_parse_mdy_none (v : String) (h : ambiguousSlashForm v = true) :
    parseWithFormat DateFmt.mdy v = none := by
  obtain ⟨a, b, c, d, e, f, g, hh, hdata, ha, hb, hc, hd', he, hf, hg, hh2, _⟩ :=
    amb_shape v h
  have hab : ∀ ch ∈ [a, b], (ch == '/') = false := by
    intro ch hch
    simp only [List.mem_cons, List.not_mem_nil, or_false] at hch
    rcases hch with rfl | rfl
    · exact digitChar_ne_slash ha
    · exact digitChar_ne_slash hb
  have hcd : ∀ ch ∈ [c, d], (ch == '/') = false := by
    intro ch hch
    simp only [List.mem_cons, List.not_mem_nil, or_false] at hch
    rcases hch with rfl | rfl
    · exact digitChar_ne_slash hc
    · exact digitChar_ne_slash hd'
  have hefgh : ∀ ch ∈ [e, f, g, hh], (ch == '/') = false := by
    intro ch hch
    simp only [List.mem_cons, List.not_mem_nil, or_false] at hch
    rcases hch with rfl | rfl | rfl | rfl
    · exact digitChar_ne_slash he
    · exact digitChar_ne_slash hf
    · exact digitChar_ne_slash hg
    · exact digitChar_ne_slash hh2
  have hsplit : splitOnChar '/' v.data = [[a, b], [c, d], [e, f, g, hh]] := by
    rw [hdata]
    have e1 : [a, b, '/', c, d, '/', e, f, g, hh]
        = [a, b] ++ '/' :: ([c, d] ++ '/' :: [e, f, g, hh]) := rfl
    rw [e1, splitOnChar_word_sep '/' [a, b] _ hab,
      splitOnChar_word_sep '/' [c, d] _ hcd,
      splitOnChar_no_sep '/' [e, f, g, hh] hefgh]
  have hy : numField 2 2 [e, f, g, hh] = none := by
    simp [numField]
  have hm : numField 1 2 [a, b] = some (digitsVal [a, b]) := by
    simp [numField, allDigits, ha, hb]
  have hd2 : numField 1 2 [c, d] = some (digitsVal [c, d]) := by
    simp [numField, allDigits, hc, hd']
  simp only [parseWithFormat]
  rw [hsplit]
  simp [hm, hd2, hy]

theorem parseColumnWith_cons_none {f : DateFmt} {v : String} (vs : List String)
    (h : parseWithFormat f v = none) : parseColumnWith f (v :: vs) = none := by
  simp [parseColumnWith, h]

theorem parseColumnWith_isSome {f : DateFmt} : ∀ {col : List String},
    (∀ v ∈ col, (parseWithFormat f v).isSome = true) →
    (parseColumnWith f col).isSome = true := by
  intro col
  induction col with
  | nil => intro _; rfl
  | cons v vs ih =>
    intro h
    obtain ⟨dv, hdv⟩ := Option.isSome_iff_exists.mp (h v (List.mem_cons_self v vs))
    obtain ⟨ds, hds⟩ :=
      Option.isSome_iff_exists.mp (ih (fun x hx => h x (List.mem_cons_of_mem v hx)))
    simp [parseColumnWith, hdv, hds]

theorem amb_mdY_isSome (v : String) (h : ambiguousSlashForm v = true) :
    (parseWithFormat DateFmt.mdY v).isSome = true := by
  obtain ⟨_, _, _, _, _, _, _, _, _, _, _, _, _, _, _, _, _, hsome⟩ := amb_shape v h
  exact hsome

/-- C3: `parse_dates` tries the fixed format list ISO, `%m/%d/%Y`, `%m/%d/%y`,
    `%d/%m/%Y`, `%d/%m/%y` in that order, one format applied to the whole
    column, first fully-successful format wins; hence a non-empty column made
    of ambiguous slash dates is parsed with `%m/%d/%Y`, and in particular
    "03/04/2024" parses to March 4, 2024 — not April 3. -/
theorem claim_C3 :
    (∀ col : List String, col ≠ [] → (∀ v ∈ col, ambiguousSlashForm v = true) →
      parse_dates_fixed col = parseColumnWith DateFmt.mdY col
        ∧ (parseColumnWith DateFmt.mdY col).isSome = true)
    ∧ parse_dates_fixed [dateAmb] = some [⟨2024, 3, 4⟩] := by
  constructor
  · intro col hne hall
    have hsome : (parseColumnWith DateFmt.mdY col).isSome = true :=
      parseColumnWith_isSome (fun v hv => amb_mdY_isSome v (hall v hv))
    have hYmd : parseColumnWith DateFmt.Ymd col = none := by
      cases col with
      | nil => exact absurd rfl hne
      | cons v vs =>
        exact parseColumnWith_cons_none vs
          (amb_parseYmd_none v (hall v (List.mem_cons_self v vs)))
    refine ⟨?_, hsome⟩
    obtain ⟨ds, hds⟩ := Option.isSome_iff_exists.mp hsome
    simp only [parse_dates_fixed, date_formats, tryFormats, hYmd, hds]
  · decide

/-- Witness for C3's general part at the singleton column ["03/04/2024"]. -/
theorem claim_C3_witness :
    parse_dates_fixed [dateAmb] = parseColumnWith DateFmt.mdY [dateAmb]
      ∧ (parseColumnWith DateFmt.mdY [dateAmb]).isSome = true :=
  claim_C3.1 [dateAmb] (by decide) (by decide)

end EventApp
